import Mathlib

/-!
Verification development for the overdue-book reminder script
(src/scripts/notion_overdue.py).

The script sweeps a record store of borrowed items, classifies each
candidate record by elapsed days since its borrow date, escalates the
record through notification stages (3-week / 4-week), e-mails borrowers,
accumulates a batch summary, and patches the persisted stage label.

The definitions below are a shallow embedding of that script: pure Python
functions become Lean functions; dictionary-shaped Notion pages become an
explicit data type; side effects (e-mails, patches, log prints) become an
event list; operations that can raise an exception return the event list
produced so far together with an optional error string, and an error in a
sub-operation propagates exactly where the Python exception would.
-/

namespace NotionOverdue

/-- Stage labels persisted into the alert-status field (source lines 31-32). -/
def ALERT_3W : String := "🟡3주알림완료"

def ALERT_4W : String := "🔴4주알림완료"

def PROP_TITLE : String := "책 제목"

def PROP_BORROWER : String := "대여자"

def PROP_BORROWED : String := "대여날짜"

def PROP_ALERT : String := "반납알림상태"

def CONTACT_PROP_EMAIL : String := "E-mail"

/-- A borrower entry as produced by get_borrower_people: the "id" and
"name" fields of a Notion person object, each possibly absent (we collapse
a JSON null and a missing key into Option.none). -/
structure Borrower where
  id : Option String
  name : Option String
deriving DecidableEq

/-- The "date" object of a date-typed property: its "start" field, possibly
absent. -/
structure DateObj where
  start : Option String
deriving DecidableEq

/-- A Notion property value, restricted to the shapes the script reads.
The constructor records the value of the property's "type" tag together
with the payload the script extracts for that type; every other type tag
is collapsed into the constructor other. For select the outer Option is
"the select object is non-null" and the inner Option is "the name field is
present". -/
inductive PropVal where
  | select (sel : Option (Option String))
  | richText (texts : List String)
  | dateVal (dv : Option DateObj)
  | people (ps : List Borrower)
  | title (texts : List String)
  | email (addr : Option String)
  | other
deriving DecidableEq

/-- A Notion page as the script consumes it: "id" (possibly absent),
"url" (defaulted to "" by the script), and the properties dictionary as an
association list in insertion order. -/
structure Page where
  id : Option String
  url : String
  properties : List (String × PropVal)
deriving DecidableEq

/-- Dictionary lookup props.get(name): first binding for the key. -/
def getProp (p : Page) (name : String) : Option PropVal :=
  (p.properties.find? (fun kv => kv.1 = name)).map (fun kv => kv.2)

/-- Python str.strip(): drop leading and trailing whitespace. -/
def pyStrip (s : String) : String :=
  String.mk (((s.toList.dropWhile Char.isWhitespace).reverse.dropWhile
    Char.isWhitespace).reverse)

/-- get_alert_status (source lines 51-64): select type yields the selected
option's name (or "" when the select object is null or nameless);
rich_text yields the concatenated plain texts, stripped; every other type
(or a missing property) yields "". -/
def get_alert_status (p : Page) : String :=
  match getProp p PROP_ALERT with
  | some (PropVal.select sel) =>
      match sel with
      | some (some n) => n
      | some Option.none => ""
      | Option.none => ""
  | some (PropVal.richText ts) => pyStrip (String.join ts)
  | _ => ""

/-- The escalation stage as an enumerated value. The script itself works
on raw status strings; this type names the three semantic levels the spec
talks about. -/
inductive Stage where
  | none
  | week3
  | week4
deriving DecidableEq

/-- Numeric rank of a stage, for stating monotonicity. -/
def Stage.toNat : Stage → Nat
  | Stage.none => 0
  | Stage.week3 => 1
  | Stage.week4 => 2

/-- Parse a persisted status string into a stage: the exact 3-week label
maps to week3, the exact 4-week label to week4, anything else (empty,
unknown text) to none. This mirrors how the script compares the status
string against the two labels (source lines 267 and 272). -/
def parseStage (s : String) : Stage :=
  if s = ALERT_3W then Stage.week3
  else if s = ALERT_4W then Stage.week4
  else Stage.none

/-- The classification decision of main (source lines 254-276), as a pure
function of the elapsed days and the current status string. It returns
the Korean stage name and the new status label of the transition, or
Option.none when the record is skipped (the bare continue at line 276):
  is_week3 = 21 <= days <= 27; is_week4 = days >= 28;
  if is_week3 and current not in (ALERT_3W, ALERT_4W): 3-week transition
  elif is_week4 and current != ALERT_4W: 4-week transition
  else: no transition. -/
def classifyStr (days : Int) (current_status : String) : Option (String × String) :=
  if (21 ≤ days ∧ days ≤ 27) ∧ (current_status ≠ ALERT_3W ∧ current_status ≠ ALERT_4W) then
    some ("3주차", ALERT_3W)
  else if 28 ≤ days ∧ current_status ≠ ALERT_4W then
    some ("4주차", ALERT_4W)
  else
    Option.none

/-- The encoding of a (non-none) target stage as the script's pair of
stage name and persisted label. -/
def encodeStage : Stage → String × String
  | Stage.none => ("", "")
  | Stage.week3 => ("3주차", ALERT_3W)
  | Stage.week4 => ("4주차", ALERT_4W)

/-- Classification as the claim states it, over parsed stages: no
transition below 21 days; in the window 21-27 a transition to week3
exactly from stage none; from 28 days a transition to week4 exactly when
the current stage is not week4. Stated from the claim's words, to be
compared against classifyStr. -/
def specClassify (days : Int) (cur : Stage) : Option Stage :=
  if days < 21 then Option.none
  else if days ≤ 27 then (if cur = Stage.none then some Stage.week3 else Option.none)
  else if cur = Stage.week4 then Option.none
  else some Stage.week4

/-- One engine write step on the persisted status string: if
classification yields a transition the new label is written, otherwise
the status is unchanged. This is the per-sweep effect of main on the
record's alert-status field when the patch succeeds. -/
def stepStatus (days : Int) (s : String) : String :=
  match classifyStr days s with
  | some tr => tr.2
  | Option.none => s

/-- A calendar date (the script only ever builds dates with a 4-digit
year, via datetime parsing). -/
structure Date where
  year : Nat
  month : Nat
  day : Nat
deriving DecidableEq

def isLeap (y : Nat) : Bool :=
  y % 4 = 0 && (y % 100 ≠ 0 || y % 400 = 0)

def daysInMonth (y m : Nat) : Nat :=
  if m = 2 then (if isLeap y then 29 else 28)
  else if m = 4 ∨ m = 6 ∨ m = 9 ∨ m = 11 then 30
  else 31

def digitsToNat? (cs : List Char) : Option Nat :=
  if cs.all Char.isDigit then
    some (cs.foldl (fun a c => a * 10 + (c.toNat - 48)) 0)
  else Option.none

/-- Parse the leading "YYYY-MM-DD" of an ISO date string, validating the
calendar ranges (year at least 1, as datetime.MINYEAR = 1). This models
datetime.fromisoformat(...).date() inside the try of get_borrowed_date:
a malformed string makes fromisoformat raise, which the except turns into
None, so the model returns Option.none there. (fromisoformat also
validates any time suffix after the first 10 characters; no property in
this development depends on a string with a malformed time suffix.) -/
def parseISODate (s : String) : Option Date :=
  match s.toList.take 10 with
  | [a, b, c, d, h1, e, f, h2, g, i] =>
    if h1 = '-' ∧ h2 = '-' then
      match digitsToNat? [a, b, c, d], digitsToNat? [e, f], digitsToNat? [g, i] with
      | some y, some m, some dd =>
        if 1 ≤ y ∧ 1 ≤ m ∧ m ≤ 12 ∧ 1 ≤ dd ∧ dd ≤ daysInMonth y m then
          some ⟨y, m, dd⟩
        else Option.none
      | _, _, _ => Option.none
    else Option.none
  | _ => Option.none

/-- Proleptic-Gregorian day number of a date (days-from-civil algorithm).
Subtracting two of these gives exactly Python's (date - date).days. -/
def Date.ordinal (dt : Date) : Int :=
  let y : Int := if dt.month ≤ 2 then (dt.year : Int) - 1 else (dt.year : Int)
  let era : Int := Int.fdiv y 400
  let yoe : Int := y - era * 400
  let m : Int := (dt.month : Int)
  let doy : Int := Int.fdiv (153 * (if 2 < dt.month then m - 3 else m + 9) + 2) 5 + (dt.day : Int) - 1
  let doe : Int := yoe * 365 + Int.fdiv yoe 4 - Int.fdiv yoe 100 + doy
  era * 146097 + doe - 719468

/-- get_borrowed_date (source lines 99-116): requires a date-typed
property with a non-null date object and a non-empty start string of
length at least 10 that parses as an ISO date; every other shape yields
None. -/
def get_borrowed_date (p : Page) : Option Date :=
  match getProp p PROP_BORROWED with
  | some (PropVal.dateVal dv) =>
    match dv with
    | Option.none => Option.none
    | some dval =>
      match dval.start with
      | Option.none => Option.none
      | some st =>
        if st = "" then Option.none
        else if 10 ≤ st.length then parseISODate st
        else Option.none
  | _ => Option.none

/-- safe_get_title (source lines 79-90): the designated title property's
text array, falling back to the first title-typed property with a
non-empty array, joined and stripped, with a placeholder when nothing
usable is found. -/
def safe_get_title (p : Page) : String :=
  let arr :=
    match getProp p PROP_TITLE with
    | some (PropVal.title ts) => ts
    | _ => []
  let arr :=
    if arr.isEmpty then
      match p.properties.findSome? (fun kv =>
        match kv.2 with
        | PropVal.title ts => if ts.isEmpty then Option.none else some ts
        | _ => Option.none) with
      | some ts => ts
      | Option.none => []
    else arr
  if arr.isEmpty then "(제목 없음)"
  else
    let s := pyStrip (String.join arr)
    if s = "" then "(제목 없음)" else s

/-- get_borrower_people (source lines 92-97): the people array of the
borrower property, or [] when the property is missing or not
people-typed. -/
def get_borrower_people (p : Page) : List Borrower :=
  match getProp p PROP_BORROWER with
  | some (PropVal.people ps) => ps
  | _ => []

/-- The joined borrower display names (source line 278): names that are
present and non-empty are joined with ", "; when that join is empty the
placeholder is used. -/
def borrowerNamesStr (bs : List Borrower) : String :=
  let ns := bs.filterMap (fun b =>
    match b.name with
    | some n => if n = "" then Option.none else some n
    | Option.none => Option.none)
  if ns.isEmpty then "(대여자 없음)" else String.intercalate ", " ns

def padNat (n width : Nat) : String :=
  let s := toString n
  String.mk (List.replicate (width - s.length) '0') ++ s

/-- Python date.isoformat(): zero-padded YYYY-MM-DD. -/
def Date.isoformat (dt : Date) : String :=
  padNat dt.year 4 ++ "-" ++ padNat dt.month 2 ++ "-" ++ padNat dt.day 2

/-- Per-record subject line (source line 280). -/
def mkSubject (stage title : String) : String :=
  "📚 반납 요청 (" ++ stage ++ "): " ++ title

/-- Per-record message body (source lines 281-287). -/
def mkBody (stage title : String) (borrowed : Date) (days : Int) (names url : String) : String :=
  "[" ++ stage ++ " 반납 요청]\n도서: " ++ title ++ "\n대여일: " ++ borrowed.isoformat ++
    " (경과 " ++ toString days ++ "일)\n대여자: " ++ names ++ "\n링크: " ++ url ++ "\n"

/-- Per-record summary line (source line 302), appended to both the admin
and the Slack batch lists. -/
def mkLine (stage title : String) (borrowed : Date) (names url : String) : String :=
  "- (" ++ stage ++ ") " ++ title ++ " / 대여일: " ++ borrowed.isoformat ++
    " / 대여자: " ++ names ++ " / " ++ url

def adminSubject : String := "📚 반납 요청 대상 전체 목록 (3주차/4주차)"

def adminBody (lines : List String) : String :=
  "아래 도서가 대여일 기준 3주차/4주차 반납 요청 대상입니다.\n\n" ++ String.intercalate "\n" lines

def slackMsg (lines : List String) : String :=
  "📚 반납 요청 대상 전체 목록 (3주차/4주차)\n" ++ String.intercalate "\n" lines

/-- Observable side effects of a run, in order of occurrence:
warnNoEmail is the [WARN] print for a borrower without a resolvable
e-mail; sent is a successfully delivered e-mail; summary is one line
appended to the admin/Slack batch lists; patched is a successful
alert-status patch; logPatchError is the error print of set_alert_status
before it re-raises; slackSent is a delivered Slack broadcast. -/
inductive Event where
  | warnNoEmail (name : String)
  | sent (addr : String)
  | summary (line : String)
  | patched (pageId status : String)
  | logPatchError (body : String)
  | slackSent (msg : String)
deriving DecidableEq

/-- The process configuration and the outcomes of the external calls a
sweep makes. Empty strings model unset environment variables (the script
strips and defaults them to ""). contactRows gives the result list of the
contacts-database query for a person id (the query itself succeeding);
sendOutcome, slackOutcome and patchOutcome give the outcome of the
corresponding network call, error meaning the Python call raises. -/
structure Env where
  token : String
  databaseId : String
  contactsDbId : String
  slackWebhookUrl : String
  smtpHost : String
  smtpPort : Nat
  smtpUser : String
  smtpPass : String
  emailTo : String
  contactRows : String → List Page
  sendOutcome : String → Except String Unit
  slackOutcome : Except String Unit
  patchOutcome : String → String → Except String Unit

/-- find_email_by_person_id (source lines 172-204): raises when the
contacts database id is unset; otherwise queries (page_size 1), returns
None on no match, else extracts the address from a typed email property
or a rich_text property (joined, stripped, empty becoming None). -/
def find_email_by_person_id (env : Env) (person_id : String) : Except String (Option String) :=
  if env.contactsDbId = "" then Except.error "NOTION_CONTACTS_DB_ID is missing."
  else
    match env.contactRows person_id with
    | [] => Except.ok Option.none
    | r :: _ =>
      match getProp r CONTACT_PROP_EMAIL with
      | some (PropVal.email a) => Except.ok a
      | some (PropVal.richText ts) =>
        let s := pyStrip (String.join ts)
        Except.ok (if s = "" then Option.none else some s)
      | _ => Except.ok Option.none

/-- send_email (source lines 206-220): a silent no-op when any SMTP
setting is missing or the recipient is empty; otherwise the SMTP
delivery either succeeds (event sent) or raises. -/
def send_email (env : Env) (to_email subject body : String) : List Event × Option String :=
  if env.smtpHost = "" ∨ env.smtpPort = 0 ∨ env.smtpUser = "" ∨ env.smtpPass = "" then
    ([], Option.none)
  else if to_email = "" then ([], Option.none)
  else
    match env.sendOutcome to_email with
    | Except.ok _ => ([Event.sent to_email], Option.none)
    | Except.error e => ([], some e)

/-- send_slack (source lines 222-226): a silent no-op when the webhook
URL is unset; otherwise the post either succeeds or raises
(raise_for_status). -/
def send_slack (env : Env) (message : String) : List Event × Option String :=
  if env.slackWebhookUrl = "" then ([], Option.none)
  else
    match env.slackOutcome with
    | Except.ok _ => ([Event.slackSent message], Option.none)
    | Except.error e => ([], some e)

/-- set_alert_status (source lines 66-77): on an HTTP failure the status
code and response body are printed (logPatchError) and raise_for_status
then raises; on success the patch is applied. -/
def set_alert_status (env : Env) (page_id status : String) : List Event × Option String :=
  match env.patchOutcome page_id status with
  | Except.ok _ => ([Event.patched page_id status], Option.none)
  | Except.error body => ([Event.logPatchError body], some body)

/-- The per-borrower loop of main (source lines 290-299): skip borrowers
without an id; look up the e-mail, propagating a raised lookup error;
warn and skip when no e-mail resolves; otherwise send, propagating a
raised delivery error (which aborts the rest of the loop). -/
def processBorrowers (env : Env) (subject body : String) : List Borrower → List Event × Option String
  | [] => ([], Option.none)
  | b :: rest =>
    let pname := b.name.getD ""
    match b.id with
    | Option.none => processBorrowers env subject body rest
    | some pid =>
      if pid = "" then processBorrowers env subject body rest
      else
        match find_email_by_person_id env pid with
        | Except.error e => ([], some e)
        | Except.ok Option.none =>
          let r := processBorrowers env subject body rest
          (Event.warnNoEmail pname :: r.1, r.2)
        | Except.ok (some em) =>
          if em = "" then
            let r := processBorrowers env subject body rest
            (Event.warnNoEmail pname :: r.1, r.2)
          else
            match send_email env em subject body with
            | (sevs, some e) => (sevs, some e)
            | (sevs, Option.none) =>
              let r := processBorrowers env subject body rest
              (sevs ++ r.1, r.2)

/-- The per-record body of main's loop (source lines 244-313): skip when
the page id or the borrow date is unusable; classify; on a transition,
attempt delivery to every borrower, append one summary line, then patch
the stage label. An error raised by a lookup, a delivery or the patch
propagates (nothing of this record is retried or caught). -/
def processPage (env : Env) (today : Date) (p : Page) : List Event × Option String :=
  let title := safe_get_title p
  let page_id := p.id.getD ""
  match get_borrowed_date p with
  | Option.none => ([], Option.none)
  | some borrowed =>
    if page_id = "" then ([], Option.none)
    else
      let days : Int := today.ordinal - borrowed.ordinal
      match classifyStr days (get_alert_status p) with
      | Option.none => ([], Option.none)
      | some tr =>
        let names := borrowerNamesStr (get_borrower_people p)
        let subject := mkSubject tr.1 title
        let body := mkBody tr.1 title borrowed days names p.url
        match processBorrowers env subject body (get_borrower_people p) with
        | (bevs, some e) => (bevs, some e)
        | (bevs, Option.none) =>
          let line := mkLine tr.1 title borrowed names p.url
          let r := set_alert_status env page_id tr.2
          (bevs ++ Event.summary line :: r.1, r.2)

/-- main's for-loop over the candidate pages: records are processed in
order; the first raised error aborts the loop (and with it the sweep),
leaving the remaining records unprocessed. -/
def sweepLoop (env : Env) (today : Date) : List Page → List Event × Option String
  | [] => ([], Option.none)
  | p :: ps =>
    match processPage env today p with
    | (evs, some e) => (evs, some e)
    | (evs, Option.none) =>
      let r := sweepLoop env today ps
      (evs ++ r.1, r.2)

/-- The summary lines accumulated by a list of events (admin_lines and
slack_lines always receive exactly the same lines, source lines 302-304). -/
def linesOf (evs : List Event) : List String :=
  evs.filterMap (fun e =>
    match e with
    | Event.summary l => some l
    | _ => Option.none)

/-- The batch admin e-mail step at the end of main (source lines 316-319):
only when an administrator address is configured and at least one line
was accumulated. -/
def adminStep (env : Env) (lines : List String) : List Event × Option String :=
  if env.emailTo ≠ "" ∧ lines ≠ [] then
    send_email env env.emailTo adminSubject (adminBody lines)
  else ([], Option.none)

/-- The batch Slack step at the end of main (source lines 322-324). -/
def slackStep (env : Env) (lines : List String) : List Event × Option String :=
  if lines ≠ [] then send_slack env (slackMsg lines) else ([], Option.none)

/-- main (source lines 228-326), given the already-fetched candidate
pages: a missing primary database id is a fatal startup error before any
work; a missing primary token makes the very first request's
notion_headers raise; otherwise the per-record loop runs, and only if it
finishes without raising are the batch admin e-mail and Slack broadcast
attempted. -/
def mainRun (env : Env) (today : Date) (pages : List Page) : List Event × Option String :=
  if env.databaseId = "" then ([], some "NOTION_DATABASE_ID is missing.")
  else if env.token = "" then ([], some "NOTION_TOKEN is missing.")
  else
    match sweepLoop env today pages with
    | (evs, some e) => (evs, some e)
    | (evs, Option.none) =>
      let lines := linesOf evs
      match adminStep env lines with
      | (aevs, some e) => (evs ++ aevs, some e)
      | (aevs, Option.none) =>
        let r := slackStep env lines
        (evs ++ aevs ++ r.1, r.2)

/-- One response of the paginated candidate query: the results array and
the has_more flag. The cursor protocol (next_cursor fed back as
start_cursor) is modelled by the list order: element i+1 is the response
the server gives for the cursor returned with element i. -/
structure QueryResponse where
  results : List Page
  has_more : Bool
deriving DecidableEq

/-- The pagination loop of query_candidate_pages (source lines 143-161):
extend the accumulated results with each response's results array and
continue while has_more. -/
def query_candidate_pages : List QueryResponse → List Page
  | [] => []
  | r :: rest => r.results ++ (if r.has_more then query_candidate_pages rest else [])

/-- The two external encodings of the alert-stage property a store schema
can declare (source comment at line 30: "Select or Rich text"). -/
inductive SchemaType where
  | selectType
  | textType
deriving DecidableEq

/-- The shape of a single-field patch payload for the alert-stage
property. -/
inductive PatchPayload where
  | selectPayload (name : String)
  | richTextPayload (content : String)
deriving DecidableEq

/-- The payload set_alert_status builds (source lines 68-72): always the
rich_text encoding, whatever the store schema. -/
def set_alert_status_payload (status : String) : PatchPayload :=
  PatchPayload.richTextPayload status

/-- Modelled from the spec: the record store accepts a single-field patch
exactly when the payload encoding matches the schema of the property
(select-type expects the enumerated-label encoding, text-type the
free-text encoding); a mismatched encoding is rejected. -/
def schemaAccepts : SchemaType → PatchPayload → Bool
  | SchemaType.selectType, PatchPayload.selectPayload _ => true
  | SchemaType.textType, PatchPayload.richTextPayload _ => true
  | _, _ => false

def countSent (evs : List Event) : Nat :=
  evs.countP (fun e =>
    match e with
    | Event.sent _ => true
    | _ => false)

def countWarn (evs : List Event) : Nat :=
  evs.countP (fun e =>
    match e with
    | Event.warnNoEmail _ => true
    | _ => false)

def countPatched (evs : List Event) : Nat :=
  evs.countP (fun e =>
    match e with
    | Event.patched _ _ => true
    | _ => false)

def countSummary (evs : List Event) : Nat :=
  evs.countP (fun e =>
    match e with
    | Event.summary _ => true
    | _ => false)

/-! Concrete fixtures, used by witnesses and counterexamples. -/

/-- A borrow-date property with the given start string. -/
def datePropOf (s : String) : String × PropVal :=
  (PROP_BORROWED, PropVal.dateVal (some ⟨some s⟩))

/-- A candidate page borrowed on 2024-01-01 with no title, no borrowers
and an empty alert status. -/
def pageDue (pid : String) : Page :=
  ⟨some pid, "", [datePropOf "2024-01-01"]⟩

/-- The same candidate page with two borrowers. -/
def pageDueTwo (pid : String) : Page :=
  ⟨some pid, "",
    [datePropOf "2024-01-01",
     (PROP_BORROWER, PropVal.people [⟨some "p1", some "철수"⟩, ⟨some "p2", some "영희"⟩])]⟩

/-- A contacts-database row whose email property is a typed email field. -/
def contactRowWith (e : String) : Page :=
  ⟨Option.none, "", [(CONTACT_PROP_EMAIL, PropVal.email (some e))]⟩

/-- A reference date 30 days after 2024-01-01. -/
def today0 : Date := ⟨2024, 1, 31⟩

/-- A fully configured environment in which every external call succeeds,
the contacts database resolves person p1 and misses person p2, Slack is
unset and no administrator address is set. -/
def baseEnv : Env where
  token := "tok"
  databaseId := "db"
  contactsDbId := "contacts"
  slackWebhookUrl := ""
  smtpHost := "smtp.example.com"
  smtpPort := 587
  smtpUser := "user"
  smtpPass := "pass"
  emailTo := ""
  contactRows := fun pid => if pid = "p1" then [contactRowWith "p1@example.com"] else []
  sendOutcome := fun _ => Except.ok ()
  slackOutcome := Except.ok ()
  patchOutcome := fun _ _ => Except.ok ()

/-- baseEnv with the stage patch failing for page id1 only. -/
def envPatchFail : Env :=
  { baseEnv with
    patchOutcome := fun pid _ =>
      if pid = "id1" then Except.error "400 validation_error body" else Except.ok () }

/-- baseEnv with p2 also resolving, and SMTP delivery failing for p1's
address only. -/
def envSendFail : Env :=
  { baseEnv with
    contactRows := fun pid =>
      if pid = "p1" then [contactRowWith "p1@example.com"]
      else if pid = "p2" then [contactRowWith "p2@example.com"]
      else []
    sendOutcome := fun addr =>
      if addr = "p1@example.com" then Except.error "SMTPException" else Except.ok () }

/-- baseEnv with the contacts database id unset. -/
def envNoContacts : Env :=
  { baseEnv with contactsDbId := "" }

def pgA : Page := ⟨some "a", "", []⟩

def pgB : Page := ⟨some "b", "", []⟩

def pgC : Page := ⟨some "c", "", []⟩

/-- Two query responses (N = 2, P = 2, final page of size P - 1) in which
the record with id "a" is served on both pages. -/
def dupResponses : List QueryResponse := [⟨[pgA, pgB], true⟩, ⟨[pgA], false⟩]

/-- Two query responses (N = 2, P = 2, final page of size P - 1) with
pairwise distinct record ids. -/
def okResponses : List QueryResponse := [⟨[pgA, pgB], true⟩, ⟨[pgC], false⟩]

end NotionOverdue

namespace NotionOverdue

example : classifyStr 21 "" = some ("3주차", ALERT_3W) := by decide
example : classifyStr 28 ALERT_3W = some ("4주차", ALERT_4W) := by decide
example : classifyStr 30 ALERT_4W = Option.none := by decide
example : parseISODate "2024-01-31" = some ⟨2024, 1, 31⟩ := by decide
example : (Date.ordinal ⟨2024, 1, 31⟩) - (Date.ordinal ⟨2024, 1, 1⟩) = 30 := by decide
example : (Date.ordinal ⟨2024, 3, 1⟩) - (Date.ordinal ⟨2024, 2, 28⟩) = 2 := by decide
example : (Date.ordinal ⟨2023, 3, 1⟩) - (Date.ordinal ⟨2023, 2, 28⟩) = 1 := by decide

-- concrete evaluations of the driver model
example : mainRun baseEnv today0 [pageDue "id1"] =
    ([Event.summary "- (4주차) (제목 없음) / 대여일: 2024-01-01 / 대여자: (대여자 없음) / ",
      Event.patched "id1" ALERT_4W], Option.none) := by decide

example : (mainRun envPatchFail today0 [pageDue "id1", pageDue "id2"]).2 =
    some "400 validation_error body" := by decide

example : (mainRun envSendFail today0 [pageDueTwo "id1"]).2 = some "SMTPException" := by decide

example : countSent (mainRun envSendFail today0 [pageDueTwo "id1"]).1 = 0 := by decide

example : (mainRun envNoContacts today0 [pageDueTwo "id1"]).2 =
    some "NOTION_CONTACTS_DB_ID is missing." := by decide

example : (mainRun baseEnv today0 [pageDueTwo "id1"]).1 =
    [Event.sent "p1@example.com", Event.warnNoEmail "영희",
     Event.summary "- (4주차) (제목 없음) / 대여일: 2024-01-01 / 대여자: 철수, 영희 / ",
     Event.patched "id1" ALERT_4W] := by decide

/-- Any transition returned by classifyStr writes a label whose parsed
stage is strictly above the parsed current stage. -/
theorem classifyStr_raises (days : Int) (s : String) (tr : String × String)
    (h : classifyStr days s = some tr) :
    (parseStage s).toNat < (parseStage tr.2).toNat := by
  unfold classifyStr at h
  split_ifs at h with h1 h2
  · cases h
    simp only [parseStage, if_neg h1.2.1, if_neg h1.2.2]
    decide
  · cases h
    show (parseStage s).toNat < (parseStage ALERT_4W).toNat
    have hp4 : parseStage ALERT_4W = Stage.week4 := by decide
    rw [hp4]
    simp only [parseStage]
    split_ifs with g1 g2
    · decide
    · exact absurd g2 h2.2
    · decide

/-- One engine write step never lowers the parsed stage. -/
theorem parseStage_le_stepStatus (d : Int) (s : String) :
    (parseStage s).toNat ≤ (parseStage (stepStatus d s)).toNat := by
  unfold stepStatus
  cases hc : classifyStr d s with
  | none => exact Nat.le_refl _
  | some tr => exact Nat.le_of_lt (classifyStr_raises d s tr hc)

/-- Across any sequence of engine write steps the parsed stage never
decreases. -/
theorem parseStage_le_foldl (ds : List Int) (s : String) :
    (parseStage s).toNat ≤
      (parseStage (ds.foldl (fun a d => stepStatus d a) s)).toNat := by
  induction ds generalizing s with
  | nil => exact Nat.le_refl _
  | cons d ds ih =>
    simp only [List.foldl_cons]
    exact Nat.le_trans (parseStage_le_stepStatus d s) (ih (stepStatus d s))

/-- C1: for every candidate record and reference date, with days the
difference today - borrowed_on and the current stage parsed from the
record's alert-status value (the 3-week label giving week3, the 4-week
label week4, anything else - empty, unknown text, or another property
type - giving none): classification yields no transition below 21 days,
a transition to week3 exactly in the 21-27 window from stage none, a
transition to week4 exactly from 28 days when the current stage is not
week4 (also directly from none), and no transition otherwise. -/
theorem claim1_classification_spec (p : Page) (today borrowed : Date) :
    classifyStr (today.ordinal - borrowed.ordinal) (get_alert_status p)
      = Option.map encodeStage
          (specClassify (today.ordinal - borrowed.ordinal)
            (parseStage (get_alert_status p))) := by
  generalize get_alert_status p = s
  generalize today.ordinal - borrowed.ordinal = days
  have hp3 : parseStage ALERT_3W = Stage.week3 := by decide
  have hp4 : parseStage ALERT_4W = Stage.week4 := by decide
  by_cases h3 : s = ALERT_3W
  · subst h3
    have f33 : (ALERT_3W ≠ ALERT_3W) = False := eq_false (fun hc => hc rfl)
    have t34 : (ALERT_3W ≠ ALERT_4W) = True := eq_true (by decide)
    rw [hp3]
    simp only [classifyStr, specClassify, f33, t34, and_false, false_and, and_true]
    split_ifs <;> first | rfl | omega | simp_all
  · by_cases h4 : s = ALERT_4W
    · subst h4
      have f44 : (ALERT_4W ≠ ALERT_4W) = False := eq_false (fun hc => hc rfl)
      have t43 : (ALERT_4W ≠ ALERT_3W) = True := eq_true (by decide)
      rw [hp4]
      simp only [classifyStr, specClassify, f44, t43, and_false, false_and, and_true]
      split_ifs <;> first | rfl | omega | simp_all
    · have hpn : parseStage s = Stage.none := by
        simp only [parseStage, if_neg h3, if_neg h4]
      have t3 : (s ≠ ALERT_3W) = True := eq_true h3
      have t4 : (s ≠ ALERT_4W) = True := eq_true h4
      rw [hpn]
      simp only [classifyStr, specClassify, t3, t4, and_true]
      split_ifs <;> first | rfl | omega | simp_all

/-- C2: the persisted stage is monotone. Whenever classification emits a
transition the written label parses strictly above the current parsed
stage; a record already at week4 yields no transition at any elapsed
time; a record at week3 is never re-sent the 3-week notice (any
transition it gets writes the 4-week label); and across any sequence of
engine write steps the parsed stage never decreases. -/
theorem claim2_stage_monotone :
    (∀ (days : Int) (s : String) (tr : String × String),
        classifyStr days s = some tr →
        (parseStage s).toNat < (parseStage tr.2).toNat)
  ∧ (∀ (days : Int) (s : String), parseStage s = Stage.week4 →
        classifyStr days s = Option.none)
  ∧ (∀ (days : Int) (s : String) (tr : String × String), parseStage s = Stage.week3 →
        classifyStr days s = some tr → tr.2 = ALERT_4W)
  ∧ (∀ (ds : List Int) (s : String),
        (parseStage s).toNat ≤
          (parseStage (ds.foldl (fun a d => stepStatus d a) s)).toNat) := by
  refine ⟨classifyStr_raises, ?_, ?_, parseStage_le_foldl⟩
  · intro days s hs
    have h4 : s = ALERT_4W := by
      by_contra hc
      simp only [parseStage] at hs
      split_ifs at hs <;> simp_all
    subst h4
    simp [classifyStr]
  · intro days s tr hs htr
    have h3 : s = ALERT_3W := by
      by_contra hc
      simp only [parseStage] at hs
      split_ifs at hs <;> simp_all
    subst h3
    have hcl : classifyStr days ALERT_3W = Option.none
        ∨ classifyStr days ALERT_3W = some ("4주차", ALERT_4W) := by
      unfold classifyStr
      split_ifs with h1 h2
      · exact absurd rfl h1.2.1
      · exact Or.inr rfl
      · exact Or.inl rfl
    rcases hcl with hc | hc
    · rw [hc] at htr; cases htr
    · rw [hc] at htr; cases htr; rfl

/-- C3 counterexample: two candidate records both due a 4-week
transition, the stage patch failing (HTTP 400) for the first. The
failure is logged with the response body and the error then propagates,
so the sweep stops: no summary line and no patch for the second record,
refuting "a per-record patch failure never aborts the whole sweep". -/
theorem claim3_patch_failure_cex :
    mainRun envPatchFail today0 [pageDue "id1", pageDue "id2"] =
      ([Event.summary "- (4주차) (제목 없음) / 대여일: 2024-01-01 / 대여자: (대여자 없음) / ",
        Event.logPatchError "400 validation_error body"],
       some "400 validation_error body")
  ∧ classifyStr (today0.ordinal - Date.ordinal ⟨2024, 1, 1⟩)
      (get_alert_status (pageDue "id2")) ≠ Option.none := by
  constructor
  · decide
  · decide

/-- C3 (amended): when the single-field stage patch fails at the HTTP
level, the failure is logged with the response body and the call raises;
the record's processing is aborted, and the raised error propagates out
of the per-record loop, so the sweep does NOT continue with the
remaining records - they are left unprocessed until the next sweep. -/
theorem claim3_patch_failure_amended :
    (∀ (env : Env) (pid st body : String),
        env.patchOutcome pid st = Except.error body →
        set_alert_status env pid st = ([Event.logPatchError body], some body))
  ∧ (∀ (env : Env) (today : Date) (p : Page) (ps : List Page)
        (evs : List Event) (e : String),
        processPage env today p = (evs, some e) →
        sweepLoop env today (p :: ps) = (evs, some e)) := by
  constructor
  · intro env pid st body h
    simp [set_alert_status, h]
  · intro env today p ps evs e h
    unfold sweepLoop
    rw [h]

/-- Witness for claim3_patch_failure_amended at concrete inputs. -/
theorem claim3_patch_failure_amended_witness :
    set_alert_status envPatchFail "id1" ALERT_4W =
      ([Event.logPatchError "400 validation_error body"], some "400 validation_error body")
  ∧ sweepLoop envPatchFail today0 [pageDue "id1", pageDue "id2"] =
      ([Event.summary "- (4주차) (제목 없음) / 대여일: 2024-01-01 / 대여자: (대여자 없음) / ",
        Event.logPatchError "400 validation_error body"],
       some "400 validation_error body") :=
  ⟨claim3_patch_failure_amended.1 envPatchFail "id1" ALERT_4W
      "400 validation_error body" rfl,
   claim3_patch_failure_amended.2 envPatchFail today0 (pageDue "id1") [pageDue "id2"]
      _ "400 validation_error body" (by decide)⟩

theorem countPatched_append (l1 l2 : List Event) :
    countPatched (l1 ++ l2) = countPatched l1 + countPatched l2 := by
  simp [countPatched, List.countP_append]

/-- send_email emits no patch event. -/
theorem countPatched_send_email (env : Env) (to_email subject body : String) :
    countPatched (send_email env to_email subject body).1 = 0 := by
  unfold send_email
  split
  · rfl
  · split
    · rfl
    · split <;> rfl

/-- The borrower loop emits no patch event. -/
theorem countPatched_processBorrowers (env : Env) (subject body : String)
    (bs : List Borrower) :
    countPatched (processBorrowers env subject body bs).1 = 0 := by
  induction bs with
  | nil => rfl
  | cons b rest ih =>
    unfold processBorrowers
    cases b.id with
    | none => exact ih
    | some pid =>
      by_cases hpid : pid = ""
      · simp only [if_pos hpid]
        exact ih
      · simp only [if_neg hpid]
        cases find_email_by_person_id env pid with
        | error e => rfl
        | ok emo =>
          cases emo with
          | none =>
            simp only [countPatched, List.countP_cons]
            simpa [countPatched] using ih
          | some em =>
            by_cases hem : em = ""
            · simp only [if_pos hem, countPatched, List.countP_cons]
              simpa [countPatched] using ih
            · simp only [if_neg hem]
              cases hse : send_email env em subject body with
              | mk sevs serr =>
                have hs0 : countPatched sevs = 0 := by
                  have := countPatched_send_email env em subject body
                  rw [hse] at this
                  exact this
                cases serr with
                | none =>
                  simp only [countPatched, List.countP_append] at *
                  omega
                | some e =>
                  exact hs0

/-- C4 counterexample: one record due a transition, two borrowers, both
resolvable, SMTP delivery failing for the first address. The raised
delivery error yields no delivery attempt to the second borrower, no
stage patch at all and aborts the sweep, refuting "the stage patch is
performed exactly once, regardless of how many deliveries succeeded" and
"a delivery failure does not prevent delivery to the remaining
recipients". -/
theorem claim4_delivery_failure_cex :
    classifyStr (today0.ordinal - Date.ordinal ⟨2024, 1, 1⟩)
      (get_alert_status (pageDueTwo "id1")) = some ("4주차", ALERT_4W)
  ∧ find_email_by_person_id envSendFail "p2" = Except.ok (some "p2@example.com")
  ∧ mainRun envSendFail today0 [pageDueTwo "id1"] = ([], some "SMTPException") := by
  refine ⟨by decide, rfl, by decide⟩

/-- C4 (amended): the borrower loop never patches; when the loop
completes without a raised error the stage patch is performed exactly
once per transition, however many deliveries succeeded or were skipped;
but a raised direct-delivery failure for one recipient stops the loop -
the remaining recipients are not attempted - and propagates, so no
summary line is appended, the stage patch is not performed, and the
record (and sweep) is aborted. -/
theorem claim4_patch_once_amended :
    (∀ (env : Env) (today : Date) (p : Page) (pid : String) (borrowed : Date)
        (tr : String × String) (bevs : List Event),
        p.id = some pid → ¬ pid = "" →
        get_borrowed_date p = some borrowed →
        classifyStr (today.ordinal - borrowed.ordinal) (get_alert_status p) = some tr →
        processBorrowers env (mkSubject tr.1 (safe_get_title p))
          (mkBody tr.1 (safe_get_title p) borrowed (today.ordinal - borrowed.ordinal)
            (borrowerNamesStr (get_borrower_people p)) p.url)
          (get_borrower_people p) = (bevs, Option.none) →
        env.patchOutcome pid tr.2 = Except.ok () →
        processPage env today p =
          (bevs ++ Event.summary (mkLine tr.1 (safe_get_title p) borrowed
              (borrowerNamesStr (get_borrower_people p)) p.url)
            :: [Event.patched pid tr.2], Option.none)
        ∧ countPatched (bevs ++ Event.summary (mkLine tr.1 (safe_get_title p) borrowed
              (borrowerNamesStr (get_borrower_people p)) p.url)
            :: [Event.patched pid tr.2]) = 1)
  ∧ (∀ (env : Env) (subject body : String) (b : Borrower) (rest : List Borrower)
        (pid0 em : String) (sevs : List Event) (e : String),
        b.id = some pid0 → ¬ pid0 = "" →
        find_email_by_person_id env pid0 = Except.ok (some em) → ¬ em = "" →
        send_email env em subject body = (sevs, some e) →
        processBorrowers env subject body (b :: rest) = (sevs, some e))
  ∧ (∀ (env : Env) (today : Date) (p : Page) (pid : String) (borrowed : Date)
        (tr : String × String) (bevs : List Event) (e : String),
        p.id = some pid → ¬ pid = "" →
        get_borrowed_date p = some borrowed →
        classifyStr (today.ordinal - borrowed.ordinal) (get_alert_status p) = some tr →
        processBorrowers env (mkSubject tr.1 (safe_get_title p))
          (mkBody tr.1 (safe_get_title p) borrowed (today.ordinal - borrowed.ordinal)
            (borrowerNamesStr (get_borrower_people p)) p.url)
          (get_borrower_people p) = (bevs, some e) →
        processPage env today p = (bevs, some e) ∧ countPatched bevs = 0) := by
  refine ⟨?_, ?_, ?_⟩
  · intro env today p pid borrowed tr bevs hid hpid hbor hcls hpb hpatch
    have hpp : processPage env today p =
        (bevs ++ Event.summary (mkLine tr.1 (safe_get_title p) borrowed
            (borrowerNamesStr (get_borrower_people p)) p.url)
          :: [Event.patched pid tr.2], Option.none) := by
      simp only [processPage, hbor, hid, Option.getD_some, if_neg hpid, hcls, hpb,
        set_alert_status, hpatch]
    refine ⟨hpp, ?_⟩
    have h0 : countPatched bevs = 0 := by
      have := countPatched_processBorrowers env (mkSubject tr.1 (safe_get_title p))
        (mkBody tr.1 (safe_get_title p) borrowed (today.ordinal - borrowed.ordinal)
          (borrowerNamesStr (get_borrower_people p)) p.url) (get_borrower_people p)
      rw [hpb] at this
      exact this
    rw [countPatched_append, h0]
    rfl
  · intro env subject body b rest pid0 em sevs e hbid hpid0 hfe hem hse
    simp only [processBorrowers, hbid, if_neg hpid0, hfe, if_neg hem, hse]
  · intro env today p pid borrowed tr bevs e hid hpid hbor hcls hpb
    have h0 : countPatched bevs = 0 := by
      have := countPatched_processBorrowers env (mkSubject tr.1 (safe_get_title p))
        (mkBody tr.1 (safe_get_title p) borrowed (today.ordinal - borrowed.ordinal)
          (borrowerNamesStr (get_borrower_people p)) p.url) (get_borrower_people p)
      rw [hpb] at this
      exact this
    refine ⟨?_, h0⟩
    simp only [processPage, hbor, hid, Option.getD_some, if_neg hpid, hcls, hpb]

/-- Witness for claim4_patch_once_amended at concrete inputs. -/
theorem claim4_patch_once_amended_witness :
    processPage baseEnv today0 (pageDueTwo "id1") =
      ([Event.sent "p1@example.com", Event.warnNoEmail "영희"] ++
        Event.summary (mkLine "4주차" (safe_get_title (pageDueTwo "id1")) ⟨2024, 1, 1⟩
            (borrowerNamesStr (get_borrower_people (pageDueTwo "id1")))
            (pageDueTwo "id1").url)
          :: [Event.patched "id1" ALERT_4W], Option.none)
  ∧ countPatched ([Event.sent "p1@example.com", Event.warnNoEmail "영희"] ++
      Event.summary (mkLine "4주차" (safe_get_title (pageDueTwo "id1")) ⟨2024, 1, 1⟩
          (borrowerNamesStr (get_borrower_people (pageDueTwo "id1")))
          (pageDueTwo "id1").url)
        :: [Event.patched "id1" ALERT_4W]) = 1 :=
  claim4_patch_once_amended.1 baseEnv today0 (pageDueTwo "id1") "id1" ⟨2024, 1, 1⟩
    ("4주차", ALERT_4W) [Event.sent "p1@example.com", Event.warnNoEmail "영희"]
    rfl (by decide) (by decide) (by decide) (by decide) rfl

/-- C5 counterexample: with every setting configured except the
contact-store ID, a sweep over a due record with a borrower raises
"NOTION_CONTACTS_DB_ID is missing." and aborts; the identical sweep with
the contact-store ID present finishes without error. This refutes "when
such a setting is absent the corresponding operation is a silent no-op
and no operation ever raises an error because of its absence". -/
theorem claim5_optional_config_cex :
    (mainRun envNoContacts today0 [pageDueTwo "id1"]).2 =
      some "NOTION_CONTACTS_DB_ID is missing."
  ∧ (mainRun baseEnv today0 [pageDueTwo "id1"]).2 = Option.none := by
  exact ⟨by decide, by decide⟩

/-- C5 (amended): the mail credentials, the broadcast endpoint and the
administrator address are each independently optional - their absence
makes the corresponding delivery a silent no-op - and the absence of the
primary store ID is a fatal startup error; but the contact-store ID is
NOT optional: its absence makes every borrower contact lookup raise,
which aborts the sweep. -/
theorem claim5_optional_config_amended :
    (∀ (env : Env) (to_email subject body : String),
        env.smtpHost = "" ∨ env.smtpPort = 0 ∨ env.smtpUser = "" ∨ env.smtpPass = "" →
        send_email env to_email subject body = ([], Option.none))
  ∧ (∀ (env : Env) (message : String), env.slackWebhookUrl = "" →
        send_slack env message = ([], Option.none))
  ∧ (∀ (env : Env) (lines : List String), env.emailTo = "" →
        adminStep env lines = ([], Option.none))
  ∧ (∀ (env : Env) (pid : String), env.contactsDbId = "" →
        find_email_by_person_id env pid =
          Except.error "NOTION_CONTACTS_DB_ID is missing.")
  ∧ (∀ (env : Env) (today : Date) (pages : List Page), env.databaseId = "" →
        mainRun env today pages = ([], some "NOTION_DATABASE_ID is missing.")) := by
  refine ⟨?_, ?_, ?_, ?_, ?_⟩
  · intro env to_email subject body h
    unfold send_email
    rw [if_pos h]
  · intro env message h
    unfold send_slack
    rw [if_pos h]
  · intro env lines h
    unfold adminStep
    rw [if_neg (fun hc => hc.1 h)]
  · intro env pid h
    unfold find_email_by_person_id
    rw [if_pos h]
  · intro env today pages h
    unfold mainRun
    rw [if_pos h]

/-- Witness for claim5_optional_config_amended at concrete inputs. -/
theorem claim5_optional_config_amended_witness :
    send_email { baseEnv with smtpHost := "" } "a@b.example" "s" "b" = ([], Option.none)
  ∧ send_slack baseEnv "hello" = ([], Option.none)
  ∧ adminStep baseEnv ["line"] = ([], Option.none)
  ∧ find_email_by_person_id envNoContacts "p1" =
      Except.error "NOTION_CONTACTS_DB_ID is missing."
  ∧ mainRun { baseEnv with databaseId := "" } today0 [pageDue "id1"] =
      ([], some "NOTION_DATABASE_ID is missing.") :=
  ⟨claim5_optional_config_amended.1 _ "a@b.example" "s" "b" (Or.inl rfl),
   claim5_optional_config_amended.2.1 baseEnv "hello" rfl,
   claim5_optional_config_amended.2.2.1 baseEnv ["line"] rfl,
   claim5_optional_config_amended.2.2.2.1 envNoContacts "p1" rfl,
   claim5_optional_config_amended.2.2.2.2 _ today0 [pageDue "id1"] rfl⟩

/-- C6 counterexample: the patch payload set_alert_status builds is the
rich_text encoding whatever the schema, so a select-typed alert-stage
field does not accept it, while the read side does handle the select
encoding - refuting "the stage-patch operation supports both external
encodings transparently". -/
theorem claim6_patch_encoding_cex :
    schemaAccepts SchemaType.selectType (set_alert_status_payload ALERT_3W) = false
  ∧ get_alert_status
      ⟨Option.none, "", [(PROP_ALERT, PropVal.select (some (some ALERT_3W)))]⟩
      = ALERT_3W := by
  exact ⟨rfl, by decide⟩

/-- C6 (amended): the read side accepts both encodings of the
alert-stage field (select and rich_text), but the stage-patch operation
always writes the free-text (rich_text) encoding: its payload is
accepted by a text-typed schema and rejected by a select-typed schema. -/
theorem claim6_patch_encoding_amended :
    (∀ (status : String),
        set_alert_status_payload status = PatchPayload.richTextPayload status)
  ∧ (∀ (status : String),
        schemaAccepts SchemaType.textType (set_alert_status_payload status) = true)
  ∧ (∀ (status : String),
        schemaAccepts SchemaType.selectType (set_alert_status_payload status) = false)
  ∧ (∀ (name u : String),
        get_alert_status
          ⟨Option.none, u, [(PROP_ALERT, PropVal.select (some (some name)))]⟩ = name)
  ∧ get_alert_status
      ⟨Option.none, "", [(PROP_ALERT, PropVal.richText [ALERT_4W])]⟩ = ALERT_4W := by
  exact ⟨fun _ => rfl, fun _ => rfl, fun _ => rfl, fun _ _ => rfl, by decide⟩

/-- Unfolding lemma: one iteration of the pagination loop. -/
theorem query_candidate_pages_cons (r : QueryResponse) (rest : List QueryResponse) :
    query_candidate_pages (r :: rest)
      = r.results ++ (if r.has_more then query_candidate_pages rest else []) := rfl

/-- With every non-final response flagged has_more and the final one not,
the pagination loop returns exactly the concatenation of the pages. -/
theorem query_candidate_pages_flatten (rs : List QueryResponse) :
    (∀ r ∈ rs.dropLast, r.has_more = true) →
    (∀ r, rs.getLast? = some r → r.has_more = false) →
    query_candidate_pages rs = (rs.map (fun r => r.results)).flatten := by
  induction rs with
  | nil => intro _ _; rfl
  | cons r rest ih =>
    intro hmid hlast
    cases rest with
    | nil =>
      have hl := hlast r rfl
      rw [query_candidate_pages_cons, hl]
      simp
    | cons r2 rest2 =>
      have hm : r.has_more = true := by
        refine hmid r ?_
        rw [List.dropLast_cons₂]
        exact List.mem_cons_self r _
      have ihh := ih
        (fun x hx => hmid x (by rw [List.dropLast_cons₂]; exact List.mem_cons_of_mem r hx))
        (fun x hx => hlast x (by rw [List.getLast?_cons_cons]; exact hx))
      rw [query_candidate_pages_cons, hm, if_pos rfl, ihh]
      simp

/-- The length of the concatenation of N pages of size P whose final page
has P - 1 items. -/
theorem pages_flatten_length (P : Nat) (rs : List QueryResponse) :
    rs ≠ [] →
    (∀ r ∈ rs.dropLast, r.results.length = P) →
    (∀ r, rs.getLast? = some r → r.results.length = P - 1) →
    ((rs.map (fun r => r.results)).flatten).length = (rs.length - 1) * P + (P - 1) := by
  induction rs with
  | nil => intro h; exact absurd rfl h
  | cons r rest ih =>
    intro _ hmid hlast
    cases rest with
    | nil =>
      have hl := hlast r rfl
      simp [hl]
    | cons r2 rest2 =>
      have hm : r.results.length = P := by
        refine hmid r ?_
        rw [List.dropLast_cons₂]
        exact List.mem_cons_self r _
      have ihh := ih (by simp)
        (fun x hx => hmid x (by rw [List.dropLast_cons₂]; exact List.mem_cons_of_mem r hx))
        (fun x hx => hlast x (by rw [List.getLast?_cons_cons]; exact hx))
      have ihs : (List.map (fun r => r.results) (r2 :: rest2)).flatten.length
          = rest2.length * P + (P - 1) := by
        rw [ihh]
        simp
      rw [List.map_cons, List.flatten_cons, List.length_append, hm, ihs,
        List.length_cons, List.length_cons]
      have h1 : rest2.length + 1 + 1 - 1 = rest2.length + 1 := by omega
      rw [h1, Nat.succ_mul]
      generalize rest2.length * P = a
      omega

/-- C7 counterexample: a cursor chain of N = 2 pages with P = 2 and P - 1
items on the final page, in which the server serves the record with id
"a" on both pages. The client returns exactly (N-1)*P + (P-1) = 3
records in concatenation order, but the result is NOT deduplicated by
record identity - the client performs no deduplication. -/
theorem claim7_pagination_cex :
    query_candidate_pages dupResponses = [pgA, pgB, pgA]
  ∧ (query_candidate_pages dupResponses).length = (2 - 1) * 2 + (2 - 1)
  ∧ ¬ ((query_candidate_pages dupResponses).map Page.id).Nodup := by
  exact ⟨rfl, rfl, by decide⟩

/-- C7 (amended): for N pages of size P with P - 1 items on the final
page, the client pages through the cursor protocol until exhausted and
returns exactly the pages' concatenation in order - (N-1)*P + (P-1)
records; it performs no deduplication, so the result is duplicate-free
exactly when the concatenation of the server's pages already is. -/
theorem claim7_pagination_amended (rs : List QueryResponse) (P : Nat)
    (hne : rs ≠ [])
    (hmid : ∀ r ∈ rs.dropLast, r.results.length = P ∧ r.has_more = true)
    (hlast : ∀ r, rs.getLast? = some r →
        r.results.length = P - 1 ∧ r.has_more = false) :
    query_candidate_pages rs = (rs.map (fun r => r.results)).flatten
  ∧ (query_candidate_pages rs).length = (rs.length - 1) * P + (P - 1)
  ∧ (((rs.map (fun r => r.results)).flatten.map Page.id).Nodup →
        ((query_candidate_pages rs).map Page.id).Nodup) := by
  have hj := query_candidate_pages_flatten rs
    (fun r hr => (hmid r hr).2) (fun r hr => (hlast r hr).2)
  have hl := pages_flatten_length P rs hne
    (fun r hr => (hmid r hr).1) (fun r hr => (hlast r hr).1)
  refine ⟨hj, ?_, ?_⟩
  · rw [hj]
    exact hl
  · intro hnd
    rw [hj]
    exact hnd

/-- Witness for claim7_pagination_amended at concrete inputs. -/
theorem claim7_pagination_amended_witness :
    query_candidate_pages okResponses
      = (okResponses.map (fun r => r.results)).flatten
  ∧ (query_candidate_pages okResponses).length = (okResponses.length - 1) * 2 + (2 - 1)
  ∧ (((okResponses.map (fun r => r.results)).flatten.map Page.id).Nodup →
        ((query_candidate_pages okResponses).map Page.id).Nodup) :=
  claim7_pagination_amended okResponses 2 (by decide) (by decide)
    (fun r hr => by
      have he : okResponses.getLast? = some (⟨[pgC], false⟩ : QueryResponse) := rfl
      rw [he] at hr
      cases hr
      exact ⟨rfl, rfl⟩)

/-- C8: for a record with a due transition and two borrowers of which
exactly one resolves to an e-mail address (the lookup returning None is
not an error), exactly one direct message is sent, the unresolved
borrower is skipped with exactly one warning log, and the stage patch
still occurs - processing ends without a raised error. -/
theorem claim8_contact_miss (env : Env) (today : Date) (p : Page) (pid : String)
    (borrowed : Date) (tr : String × String) (b1 b2 : Borrower) (i1 i2 em : String)
    (hid : p.id = some pid) (hpid : ¬ pid = "")
    (hbor : get_borrowed_date p = some borrowed)
    (hcls : classifyStr (today.ordinal - borrowed.ordinal) (get_alert_status p) = some tr)
    (hppl : get_borrower_people p = [b1, b2])
    (hb1 : b1.id = some i1) (hi1 : ¬ i1 = "")
    (hb2 : b2.id = some i2) (hi2 : ¬ i2 = "")
    (hsm : ¬ (env.smtpHost = "" ∨ env.smtpPort = 0 ∨ env.smtpUser = "" ∨ env.smtpPass = ""))
    (hem : ¬ em = "") (hsend : env.sendOutcome em = Except.ok ())
    (hres : (find_email_by_person_id env i1 = Except.ok (some em)
              ∧ find_email_by_person_id env i2 = Except.ok Option.none)
          ∨ (find_email_by_person_id env i1 = Except.ok Option.none
              ∧ find_email_by_person_id env i2 = Except.ok (some em)))
    (hpatch : env.patchOutcome pid tr.2 = Except.ok ()) :
    (processPage env today p).2 = Option.none
  ∧ countSent (processPage env today p).1 = 1
  ∧ countWarn (processPage env today p).1 = 1
  ∧ countPatched (processPage env today p).1 = 1
  ∧ countSummary (processPage env today p).1 = 1 := by
  rcases hres with ⟨hf1, hf2⟩ | ⟨hf1, hf2⟩
  · have hpb : processBorrowers env (mkSubject tr.1 (safe_get_title p))
        (mkBody tr.1 (safe_get_title p) borrowed (today.ordinal - borrowed.ordinal)
          (borrowerNamesStr (get_borrower_people p)) p.url)
        (get_borrower_people p)
        = ([Event.sent em, Event.warnNoEmail (b2.name.getD "")], Option.none) := by
      rw [hppl]
      simp only [processBorrowers, hb1, hb2, if_neg hi1, if_neg hi2, hf1, hf2,
        if_neg hem, send_email, if_neg hsm, hsend]
      rfl
    have hpp : processPage env today p
        = ([Event.sent em, Event.warnNoEmail (b2.name.getD "")] ++
            Event.summary (mkLine tr.1 (safe_get_title p) borrowed
              (borrowerNamesStr (get_borrower_people p)) p.url)
            :: [Event.patched pid tr.2], Option.none) := by
      simp only [processPage, hbor, hid, Option.getD_some, if_neg hpid, hcls, hpb,
        set_alert_status, hpatch]
    rw [hpp]
    exact ⟨rfl, rfl, rfl, rfl, rfl⟩
  · have hpb : processBorrowers env (mkSubject tr.1 (safe_get_title p))
        (mkBody tr.1 (safe_get_title p) borrowed (today.ordinal - borrowed.ordinal)
          (borrowerNamesStr (get_borrower_people p)) p.url)
        (get_borrower_people p)
        = ([Event.warnNoEmail (b1.name.getD ""), Event.sent em], Option.none) := by
      rw [hppl]
      simp only [processBorrowers, hb1, hb2, if_neg hi1, if_neg hi2, hf1, hf2,
        if_neg hem, send_email, if_neg hsm, hsend]
      rfl
    have hpp : processPage env today p
        = ([Event.warnNoEmail (b1.name.getD ""), Event.sent em] ++
            Event.summary (mkLine tr.1 (safe_get_title p) borrowed
              (borrowerNamesStr (get_borrower_people p)) p.url)
            :: [Event.patched pid tr.2], Option.none) := by
      simp only [processPage, hbor, hid, Option.getD_some, if_neg hpid, hcls, hpb,
        set_alert_status, hpatch]
    rw [hpp]
    exact ⟨rfl, rfl, rfl, rfl, rfl⟩

/-- Witness for claim8_contact_miss at concrete inputs. -/
theorem claim8_contact_miss_witness :
    (processPage baseEnv today0 (pageDueTwo "id1")).2 = Option.none
  ∧ countSent (processPage baseEnv today0 (pageDueTwo "id1")).1 = 1
  ∧ countWarn (processPage baseEnv today0 (pageDueTwo "id1")).1 = 1
  ∧ countPatched (processPage baseEnv today0 (pageDueTwo "id1")).1 = 1
  ∧ countSummary (processPage baseEnv today0 (pageDueTwo "id1")).1 = 1 :=
  claim8_contact_miss baseEnv today0 (pageDueTwo "id1") "id1" ⟨2024, 1, 1⟩
    ("4주차", ALERT_4W) ⟨some "p1", some "철수"⟩ ⟨some "p2", some "영희"⟩
    "p1" "p2" "p1@example.com"
    rfl (by decide) (by decide) (by decide) (by decide)
    rfl (by decide) rfl (by decide) (by decide) (by decide) rfl
    (Or.inl ⟨rfl, rfl⟩) rfl

/-- C9: borrow-date extraction is total and fail-safe: a missing
property, a property of a non-date type, a null date object, a missing
start string, and a malformed start string all yield None rather than an
exception, and the run driver then skips such a record entirely - no
classification, no messages, no summary line, no patch. -/
theorem claim9_borrow_date_total :
    (∀ (p : Page), getProp p PROP_BORROWED = Option.none →
        get_borrowed_date p = Option.none)
  ∧ (∀ (p : Page) (v : PropVal), getProp p PROP_BORROWED = some v →
        (∀ dv, v ≠ PropVal.dateVal dv) → get_borrowed_date p = Option.none)
  ∧ (∀ (p : Page), getProp p PROP_BORROWED = some (PropVal.dateVal Option.none) →
        get_borrowed_date p = Option.none)
  ∧ (∀ (p : Page),
        getProp p PROP_BORROWED = some (PropVal.dateVal (some ⟨Option.none⟩)) →
        get_borrowed_date p = Option.none)
  ∧ (∀ (p : Page) (st : String),
        getProp p PROP_BORROWED = some (PropVal.dateVal (some ⟨some st⟩)) →
        parseISODate st = Option.none → get_borrowed_date p = Option.none)
  ∧ (∀ (env : Env) (today : Date) (p : Page), get_borrowed_date p = Option.none →
        processPage env today p = ([], Option.none)) := by
  refine ⟨?_, ?_, ?_, ?_, ?_, ?_⟩
  · intro p h
    unfold get_borrowed_date
    rw [h]
  · intro p v h hnd
    unfold get_borrowed_date
    rw [h]
    cases v with
    | dateVal dv => exact absurd rfl (hnd dv)
    | select sel => rfl
    | richText ts => rfl
    | people ps => rfl
    | title ts => rfl
    | email a => rfl
    | other => rfl
  · intro p h
    unfold get_borrowed_date
    rw [h]
  · intro p h
    unfold get_borrowed_date
    rw [h]
  · intro p st h hp
    unfold get_borrowed_date
    rw [h]
    show (if st = "" then (Option.none : Option Date)
      else if 10 ≤ st.length then parseISODate st else Option.none) = Option.none
    by_cases hse : st = ""
    · rw [if_pos hse]
    · rw [if_neg hse]
      by_cases hlen : 10 ≤ st.length
      · rw [if_pos hlen]
        exact hp
      · rw [if_neg hlen]
  · intro env today p h
    unfold processPage
    rw [h]

/-- Witness for claim9_borrow_date_total at concrete inputs. -/
theorem claim9_borrow_date_total_witness :
    get_borrowed_date ⟨some "x", "", []⟩ = Option.none
  ∧ get_borrowed_date ⟨some "x", "", [(PROP_BORROWED, PropVal.other)]⟩ = Option.none
  ∧ get_borrowed_date ⟨some "x", "", [(PROP_BORROWED, PropVal.dateVal Option.none)]⟩
      = Option.none
  ∧ get_borrowed_date ⟨some "x", "", [(PROP_BORROWED,
      PropVal.dateVal (some ⟨Option.none⟩))]⟩ = Option.none
  ∧ get_borrowed_date ⟨some "x", "", [datePropOf "not-a-date!!"]⟩ = Option.none
  ∧ processPage baseEnv today0 ⟨some "x", "", [datePropOf "not-a-date!!"]⟩
      = ([], Option.none) :=
  ⟨claim9_borrow_date_total.1 ⟨some "x", "", []⟩ rfl,
   claim9_borrow_date_total.2.1 ⟨some "x", "", [(PROP_BORROWED, PropVal.other)]⟩
     PropVal.other rfl (fun dv h => PropVal.noConfusion h),
   claim9_borrow_date_total.2.2.1
     ⟨some "x", "", [(PROP_BORROWED, PropVal.dateVal Option.none)]⟩ rfl,
   claim9_borrow_date_total.2.2.2.1
     ⟨some "x", "", [(PROP_BORROWED, PropVal.dateVal (some ⟨Option.none⟩))]⟩ rfl,
   claim9_borrow_date_total.2.2.2.2.1
     ⟨some "x", "", [datePropOf "not-a-date!!"]⟩ "not-a-date!!" rfl (by decide),
   claim9_borrow_date_total.2.2.2.2.2 baseEnv today0
     ⟨some "x", "", [datePropOf "not-a-date!!"]⟩ (by decide)⟩

/-- C10: a candidate record whose borrower list is empty but whose
elapsed days and current stage warrant a transition is still fully
applied: zero direct messages, the placeholder in place of borrower
names in the rendered message and the summary line, exactly one summary
line, and exactly one stage patch. -/
theorem claim10_empty_borrowers (env : Env) (today : Date) (p : Page) (pid : String)
    (borrowed : Date) (tr : String × String)
    (hid : p.id = some pid) (hpid : ¬ pid = "")
    (hbor : get_borrowed_date p = some borrowed)
    (hcls : classifyStr (today.ordinal - borrowed.ordinal) (get_alert_status p) = some tr)
    (hppl : get_borrower_people p = [])
    (hpatch : env.patchOutcome pid tr.2 = Except.ok ()) :
    borrowerNamesStr (get_borrower_people p) = "(대여자 없음)"
  ∧ processPage env today p =
      ([Event.summary (mkLine tr.1 (safe_get_title p) borrowed "(대여자 없음)" p.url),
        Event.patched pid tr.2], Option.none)
  ∧ mkBody tr.1 (safe_get_title p) borrowed (today.ordinal - borrowed.ordinal)
      (borrowerNamesStr (get_borrower_people p)) p.url
    = mkBody tr.1 (safe_get_title p) borrowed (today.ordinal - borrowed.ordinal)
      "(대여자 없음)" p.url := by
  have hnames : borrowerNamesStr (get_borrower_people p) = "(대여자 없음)" := by
    rw [hppl]
    rfl
  have hpb : processBorrowers env (mkSubject tr.1 (safe_get_title p))
      (mkBody tr.1 (safe_get_title p) borrowed (today.ordinal - borrowed.ordinal)
        (borrowerNamesStr (get_borrower_people p)) p.url)
      (get_borrower_people p) = ([], Option.none) := by
    rw [hppl]
    rfl
  refine ⟨hnames, ?_, by rw [hnames]⟩
  have hpp : processPage env today p =
      ([Event.summary (mkLine tr.1 (safe_get_title p) borrowed
          (borrowerNamesStr (get_borrower_people p)) p.url),
        Event.patched pid tr.2], Option.none) := by
    simp only [processPage, hbor, hid, Option.getD_some, if_neg hpid, hcls, hpb,
      set_alert_status, hpatch, List.nil_append]
  rw [hnames] at hpp
  exact hpp

/-- Witness for claim10_empty_borrowers at concrete inputs. -/
theorem claim10_empty_borrowers_witness :
    borrowerNamesStr (get_borrower_people (pageDue "id1")) = "(대여자 없음)"
  ∧ processPage baseEnv today0 (pageDue "id1") =
      ([Event.summary (mkLine "4주차" (safe_get_title (pageDue "id1")) ⟨2024, 1, 1⟩
          "(대여자 없음)" (pageDue "id1").url),
        Event.patched "id1" ALERT_4W], Option.none)
  ∧ mkBody "4주차" (safe_get_title (pageDue "id1")) ⟨2024, 1, 1⟩
      (today0.ordinal - Date.ordinal ⟨2024, 1, 1⟩)
      (borrowerNamesStr (get_borrower_people (pageDue "id1"))) (pageDue "id1").url
    = mkBody "4주차" (safe_get_title (pageDue "id1")) ⟨2024, 1, 1⟩
      (today0.ordinal - Date.ordinal ⟨2024, 1, 1⟩) "(대여자 없음)" (pageDue "id1").url :=
  claim10_empty_borrowers baseEnv today0 (pageDue "id1") "id1" ⟨2024, 1, 1⟩
    ("4주차", ALERT_4W) rfl (by decide) (by decide) (by decide) rfl rfl

/-- Witness for claim2_stage_monotone at concrete inputs. -/
theorem claim2_stage_monotone_witness :
    (parseStage "").toNat < (parseStage ALERT_3W).toNat
  ∧ classifyStr 40 ALERT_4W = Option.none
  ∧ ("4주차", ALERT_4W).2 = ALERT_4W :=
  ⟨claim2_stage_monotone.1 21 "" ("3주차", ALERT_3W) (by decide),
   claim2_stage_monotone.2.1 40 ALERT_4W (by decide),
   claim2_stage_monotone.2.2.1 30 ALERT_3W ("4주차", ALERT_4W) (by decide) (by decide)⟩

end NotionOverdue
